import Mathlib

/-
Verification of the gr-dvbs2rx physical-layer parameter helpers and of the
synchronization/deframing pipeline described in the design document.

The Python module `python/dvbs2rx/params.py` (with its tables in
`python/dvbs2rx/defs.py`) is embedded shallowly below: Python strings become
lists of characters, Python dictionaries become association lists, functions
that may raise become `Except String` computations.  The streaming C++ blocks
(BBFRAME deheader, PL frame synchronizer, symbol timing synchronizer) are not
part of the Python sources; they are modelled from the design document, as
marked in their doc comments.
-/

namespace DVBS2

/-- Python strings are modelled as lists of characters. -/
abbrev PyStr := List Char

/-- Character list of a Lean string literal (used to write Python string
literals compactly). -/
def S (s : String) : PyStr := s.data

/-- Python `str.upper()` (ASCII, which is all the tables use). -/
def pyUpper (s : PyStr) : PyStr := s.map Char.toUpper

/-- Python `str.lower()` (ASCII, which is all the tables use). -/
def pyLower (s : PyStr) : PyStr := s.map Char.toLower

/-- Dictionary lookup, `d[k]` / `k in d`, over an association list. -/
def plookup {κ α : Type} [DecidableEq κ] (k : κ) : List (κ × α) → Option α
  | [] => none
  | (k0, v) :: rest => if k = k0 then some v else plookup k rest

/-- Python `x in l` for a list of keys. -/
def pmem {κ : Type} [DecidableEq κ] (k : κ) (l : List κ) : Bool :=
  l.any (fun x => decide (x = k))

/-- Decidable equality for `Except` results, so concrete runs can be checked
by evaluation. -/
instance {e a : Type} [DecidableEq e] [DecidableEq a] : DecidableEq (Except e a) :=
  fun x y => by
    cases x with
    | error u =>
      cases y with
      | error v =>
        exact decidable_of_iff (u = v) ⟨fun h => by rw [h], fun h => by injection h⟩
      | ok v => exact isFalse (fun h => by injection h)
    | ok u =>
      cases y with
      | error v => exact isFalse (fun h => by injection h)
      | ok v =>
        exact decidable_of_iff (u = v) ⟨fun h => by rw [h], fun h => by injection h⟩

/-- The `'def'` field of an LDPC code table entry: either a single pybind11
definition name or a list of them (frame-size / VL-SNR dependent). -/
inductive CodeDef where
  | one (d : String)
  | many (ds : List String)
deriving DecidableEq

/-- The optional `'vl-snr'` field of an LDPC code table entry: absent, a bare
Boolean, or a list of Booleans aligned with the `'def'` list. -/
inductive VlSnrField where
  | absent
  | flag (b : Bool)
  | flags (l : List Bool)
deriving DecidableEq

/-- One entry of `defs.ldpc_codes`. -/
structure LdpcEntry where
  defName : CodeDef
  frames : List PyStr
  stds : List PyStr
  vlsnr : VlSnrField
deriving DecidableEq

/-- One entry of `defs.constellations`. -/
structure ConstEntry where
  defName : String
  stds : List PyStr
deriving DecidableEq

/-- One entry of `defs.rolloffs` (keys are the Python float literals, kept
exact as rationals). -/
structure RolloffEntry where
  defName : String
  stds : List PyStr
deriving DecidableEq

/-- Table `defs.standards`. -/
def standards : List (PyStr × String) :=
  [(S "DVB-T2", "STANDARD_DVBT2"),
   (S "DVB-S2", "STANDARD_DVBS2"),
   (S "DVB-S2X", "STANDARD_DVBS2")]

/-- Table `defs.frame_sizes`. -/
def frame_sizes : List (PyStr × String) :=
  [(S "normal", "FECFRAME_NORMAL"),
   (S "medium", "FECFRAME_MEDIUM"),
   (S "short", "FECFRAME_SHORT")]

/-- Table `defs.constellations`. -/
def constellations : List (PyStr × ConstEntry) :=
  [(S "QPSK", ⟨"MOD_QPSK", [S "DVB-T2", S "DVB-S2"]⟩),
   (S "16QAM", ⟨"MOD_16QAM", [S "DVB-T2"]⟩),
   (S "64QAM", ⟨"MOD_64QAM", [S "DVB-T2"]⟩),
   (S "256QAM", ⟨"MOD_256QAM", [S "DVB-T2"]⟩),
   (S "8PSK", ⟨"MOD_8PSK", [S "DVB-S2"]⟩)]

/-- Table `defs.rolloffs`. -/
def rolloffs : List (ℚ × RolloffEntry) :=
  [((35 : ℚ) / 100, ⟨"RO_0_35", [S "DVB-S2", S "DVB-S2X"]⟩),
   ((25 : ℚ) / 100, ⟨"RO_0_25", [S "DVB-S2", S "DVB-S2X"]⟩),
   ((20 : ℚ) / 100, ⟨"RO_0_20", [S "DVB-S2", S "DVB-S2X"]⟩),
   ((15 : ℚ) / 100, ⟨"RO_0_15", [S "DVB-S2X"]⟩),
   ((10 : ℚ) / 100, ⟨"RO_0_10", [S "DVB-S2X"]⟩),
   ((5 : ℚ) / 100, ⟨"RO_0_05", [S "DVB-S2X"]⟩)]

/-- Table `defs.pilots`. -/
def pilotsTable (b : Bool) : String :=
  if b then "PILOTS_ON" else "PILOTS_OFF"

/-- Table `defs.ldpc_codes`. -/
def ldpc_codes : List (PyStr × LdpcEntry) :=
  [(S "1/4", ⟨.one "C1_4", [S "normal", S "short"], [S "DVB-S2", S "DVB-T2"], .absent⟩),
   (S "1/3", ⟨.many ["C1_3", "C1_3", "C1_3_MEDIUM", "C1_3_VLSNR"],
              [S "normal", S "short", S "medium", S "short"],
              [S "DVB-S2X", S "DVB-S2", S "DVB-T2"],
              .flags [false, false, true, true]⟩),
   (S "2/5", ⟨.one "C2_5", [S "normal", S "short"], [S "DVB-S2", S "DVB-T2"], .absent⟩),
   (S "1/2", ⟨.one "C1_2", [S "normal", S "short"], [S "DVB-S2", S "DVB-T2"], .absent⟩),
   (S "3/5", ⟨.one "C3_5", [S "normal", S "short"], [S "DVB-S2", S "DVB-T2"], .absent⟩),
   (S "2/3", ⟨.one "C2_3", [S "normal", S "short"], [S "DVB-S2", S "DVB-T2"], .absent⟩),
   (S "3/4", ⟨.one "C3_4", [S "normal", S "short"], [S "DVB-S2", S "DVB-T2"], .absent⟩),
   (S "4/5", ⟨.one "C4_5", [S "normal", S "short"], [S "DVB-S2", S "DVB-T2"], .absent⟩),
   (S "5/6", ⟨.one "C5_6", [S "normal", S "short"], [S "DVB-S2", S "DVB-T2"], .absent⟩),
   (S "8/9", ⟨.one "C8_9", [S "normal", S "short"], [S "DVB-S2"], .absent⟩),
   (S "9/10", ⟨.one "C9_10", [S "normal"], [S "DVB-S2"], .absent⟩),
   (S "2/9", ⟨.one "C2_9_VLSNR", [S "normal"], [S "DVB-S2X"], .flag true⟩),
   (S "13/45", ⟨.one "C13_45", [S "normal"], [S "DVB-S2X"], .absent⟩),
   (S "9/20", ⟨.one "C9_20", [S "normal"], [S "DVB-S2X"], .absent⟩),
   (S "90/180", ⟨.one "C90_180", [S "normal"], [S "DVB-S2X"], .absent⟩),
   (S "96/180", ⟨.one "C96_180", [S "normal"], [S "DVB-S2X"], .absent⟩),
   (S "11/20", ⟨.one "C11_20", [S "normal"], [S "DVB-S2X"], .absent⟩),
   (S "100/180", ⟨.one "C100_180", [S "normal"], [S "DVB-S2X"], .absent⟩),
   (S "104/180", ⟨.one "C104_180", [S "normal"], [S "DVB-S2X"], .absent⟩),
   (S "26/45", ⟨.one "C26_45", [S "normal", S "short"], [S "DVB-S2X"], .absent⟩),
   (S "18/30", ⟨.one "C18_30", [S "normal"], [S "DVB-S2X"], .absent⟩),
   (S "28/45", ⟨.one "C28_45", [S "normal"], [S "DVB-S2X"], .absent⟩),
   (S "23/36", ⟨.one "C23_36", [S "normal"], [S "DVB-S2X"], .absent⟩),
   (S "116/180", ⟨.one "C116_180", [S "normal"], [S "DVB-S2X"], .absent⟩),
   (S "20/30", ⟨.one "C20_30", [S "normal"], [S "DVB-S2X"], .absent⟩),
   (S "124/180", ⟨.one "C124_180", [S "normal"], [S "DVB-S2X"], .absent⟩),
   (S "25/36", ⟨.one "25/36", [S "normal"], [S "DVB-S2X"], .absent⟩),
   (S "128/180", ⟨.one "C128_180", [S "normal"], [S "DVB-S2X"], .absent⟩),
   (S "13/18", ⟨.one "C13_18", [S "normal"], [S "DVB-S2X"], .absent⟩),
   (S "132/180", ⟨.one "C132_180", [S "normal"], [S "DVB-S2X"], .absent⟩),
   (S "22/30", ⟨.one "C22_30", [S "normal"], [S "DVB-S2X"], .absent⟩),
   (S "135/180", ⟨.one "C135_180", [S "normal"], [S "DVB-S2X"], .absent⟩),
   (S "140/180", ⟨.one "C140_180", [S "normal"], [S "DVB-S2X"], .absent⟩),
   (S "7/9", ⟨.one "C7_9", [S "normal"], [S "DVB-S2X"], .absent⟩),
   (S "154/180", ⟨.one "C154_180", [S "normal"], [S "DVB-S2X"], .absent⟩),
   (S "1/5", ⟨.many ["C1_5_MEDIUM", "C1_5_VLSNR_SF2", "C1_5_VLSNR"],
              [S "medium", S "short", S "short"], [S "DVB-S2X"], .flag true⟩),
   (S "11/45", ⟨.many ["C11_45", "C11_45_MEDIUM", "C11_45_VLSNR_SF2"],
                [S "short", S "medium", S "short"], [S "DVB-S2X"],
                .flags [false, true, true]⟩),
   (S "4/15", ⟨.many ["C4_15", "C4_15_VLSNR"], [S "short", S "short"],
               [S "DVB-S2X"], .flags [false, true]⟩),
   (S "14/45", ⟨.one "C14_45", [S "short"], [S "DVB-S2X"], .absent⟩),
   (S "7/15", ⟨.one "C7_15", [S "short"], [S "DVB-S2X"], .absent⟩),
   (S "8/15", ⟨.one "C8_15", [S "short"], [S "DVB-S2X"], .absent⟩),
   (S "32/45", ⟨.one "C32_45", [S "short"], [S "DVB-S2X"], .absent⟩)]

/-- Table `defs.dvbs2_modcods`. -/
def dvbs2_modcods : List (PyStr × Nat) :=
  [(S "qpsk1/4", 1), (S "qpsk1/3", 2), (S "qpsk2/5", 3), (S "qpsk1/2", 4),
   (S "qpsk3/5", 5), (S "qpsk2/3", 6), (S "qpsk3/4", 7), (S "qpsk4/5", 8),
   (S "qpsk5/6", 9), (S "qpsk8/9", 10), (S "qpsk9/10", 11),
   (S "8psk3/5", 12), (S "8psk2/3", 13), (S "8psk3/4", 14), (S "8psk5/6", 15),
   (S "8psk8/9", 16), (S "8psk9/10", 17),
   (S "16apsk2/3", 18), (S "16apsk3/4", 19), (S "16apsk4/5", 20),
   (S "16apsk5/6", 21), (S "16apsk8/9", 22), (S "16apsk9/10", 23),
   (S "32apsk3/4", 24), (S "32apsk4/5", 25), (S "32apsk5/6", 26),
   (S "32apsk8/9", 27), (S "32apsk9/10", 28)]

/-- Python truthiness of the `'vl-snr'` field value, for
`not defs.ldpc_codes[code]['vl-snr']` (a missing key is handled separately by
the caller). -/
def vlsnrTruthy : VlSnrField → Bool
  | .absent => false
  | .flag b => b
  | .flags l => !l.isEmpty

/-- Embedding of `params.validate` (the diagnostic `print` calls are dropped;
only the returned Boolean is kept).  The string parameters are re-cased via
`_adjust_case` exactly as in the source.  The `pilots` argument is typed, so
the `isinstance(pilots, bool)` check is always true here. -/
def validate (standard frame_size code : PyStr) (constellation : Option PyStr)
    (rolloff : Option ℚ) (pilots : Option Bool) (vl_snr : Bool) : Bool :=
  let std := pyUpper standard
  let fs := pyLower frame_size
  let cst := constellation.map pyUpper
  if (plookup std standards).isNone then false
  else if (plookup fs frame_sizes).isNone then false
  else if (match cst with
           | none => false
           | some c =>
             !(pmem c ((constellations.filter
                 (fun (e : PyStr × ConstEntry) => pmem std e.2.stds)).map
                   Prod.fst))) then false
  else if !(pmem code ((ldpc_codes.filter
        (fun (e : PyStr × LdpcEntry) =>
          pmem std e.2.stds && pmem fs e.2.frames)).map
            Prod.fst)) then false
  else if (match cst with
           | none => false
           | some c =>
             std = S "DVB-S2" &&
               (plookup (pyLower c ++ code) dvbs2_modcods).isNone) then false
  else if vl_snr && !(std = S "DVB-S2X") then false
  else if vl_snr &&
      (match plookup code ldpc_codes with
       | none => true
       | some entry =>
         (entry.vlsnr = VlSnrField.absent) || !(vlsnrTruthy entry.vlsnr)) then
    false
  else if (match rolloff with
           | none => false
           | some r =>
             !(pmem r ((rolloffs.filter
                 (fun (e : ℚ × RolloffEntry) => pmem std e.2.stds)).map
                   Prod.fst))) then false
  else
    -- `pilots` is a typed Boolean here, so `isinstance(pilots, bool)` holds.
    true

/-- Index search of `params.translate` over a list-valued `'def'` field:
`for idx, d in enumerate(code_def): if frame_size == frame_sizes[idx] and
vl_snr == vl_snr_modes[idx]: found`.  Indexing a non-list `'vl-snr'` value
raises a TypeError in Python; falling off the end fails the `assert(found)`. -/
def findDefIdx (fs : PyStr) (vl : Bool) (frames : List PyStr)
    (vlf : VlSnrField) : Nat → Nat → Except String Nat
  | 0, _ => .error "AssertionError"
  | fuel + 1, idx =>
    if fs = frames.getD idx (S "") then
      match vlf with
      | .flags modes =>
        if vl = modes.getD idx false then .ok idx
        else findDefIdx fs vl frames vlf fuel (idx + 1)
      | _ => .error "TypeError"
    else findDefIdx fs vl frames vlf fuel (idx + 1)

/-- Embedding of `params.translate`.  The pybind11 enum values produced via
`eval("dvbs2rx." + name)` are represented by their definition-name strings,
collected in order into the result tuple. -/
def translate (standard frame_size code : PyStr) (constellation : Option PyStr)
    (rolloff : Option ℚ) (pilots : Option Bool) (vl_snr : Bool) :
    Except String (List String) := do
  let std := pyUpper standard
  let fs := pyLower frame_size
  let cst := constellation.map pyUpper
  -- NOTE: the source calls validate without forwarding vl_snr.
  if !(validate std fs code cst rolloff pilots false) then
    throw "Invalid parameters"
  let some t_standard := plookup std standards | throw "KeyError"
  let some t_frame_size := plookup fs frame_sizes | throw "KeyError"
  let some entry := plookup code ldpc_codes | throw "KeyError"
  let t_code ←
    match entry.defName with
    | .one d => pure d
    | .many ds =>
      match entry.vlsnr with
      | .absent => throw "KeyError"
      | vlf => do
        let idx ← findDefIdx fs vl_snr entry.frames vlf ds.length 0
        pure (ds.getD idx "")
  let res := [t_standard, t_frame_size, t_code]
  let res ←
    match cst with
    | none => pure res
    | some c =>
      match plookup c constellations with
      | none => throw "KeyError"
      | some e => pure (res ++ [e.defName])
  let res ←
    match rolloff with
    | none => pure res
    | some r =>
      match plookup r rolloffs with
      | none => throw "KeyError"
      | some e => pure (res ++ [e.defName])
  let res ←
    match pilots with
    | none => pure res
    | some b => pure (res ++ [pilotsTable b])
  return res

/-- Embedding of `params.dvbs2_pls`.  Note the source validates with
`frame_size.lower()` and `constellation.upper()` but then compares the raw
`frame_size` against the literal string `short` and looks the MODCOD up with
the raw `constellation.lower()`. -/
def dvbs2_pls (constellation code frame_size : PyStr) (pilots : Bool) :
    Except String Nat :=
  if !(validate (S "DVB-S2") (pyLower frame_size) code
        (some (pyUpper constellation)) none (some pilots) false) then
    .error "Invalid DVB-S2 parameters"
  else
    match plookup (pyLower constellation ++ code) dvbs2_modcods with
    | none => .error "KeyError"
    | some modcod =>
      let short_frame : Bool := frame_size = S "short"
      let pls := (modcod <<< 2) ||| ((if short_frame then 1 else 0) <<< 1) |||
        (if pilots then 1 else 0)
      -- `pls` is a Nat, so the `pls < 0` half of the source check is vacuous.
      if 128 ≤ pls then .error "Unexpected PLS value"
      else .ok pls

/-- Accumulating loop of `params.pls_filter`. -/
def pls_filterAux (lo hi : Nat) : List Int → Except String (Nat × Nat)
  | [] => .ok (lo, hi)
  | p :: rest =>
    if p < 0 ∨ 128 ≤ p then .error "Unexpected PLS value"
    else if 64 ≤ p then pls_filterAux lo (hi ||| (1 <<< (p - 64).toNat)) rest
    else pls_filterAux (lo ||| (1 <<< p.toNat)) hi rest

/-- Embedding of `params.pls_filter` (the `*pls_tuple` varargs become a list;
PLS values keep Python's arbitrary-sign integers). -/
def pls_filter (pls_tuple : List Int) : Except String (Nat × Nat) :=
  pls_filterAux 0 0 pls_tuple

/-- Result dictionary of `params.pl_info`. -/
structure PlInfo where
  n_mod : Nat
  n_slots : Nat
  n_pilots : Nat
  plframe_len : Nat
  xfecframe_len : Nat
deriving DecidableEq

/-- Body of `params.pl_info` after the `dvbs2_pls` call: frame geometry
computed from the 7-bit PLS value. -/
def plInfoOfPls (plsc : Nat) : PlInfo :=
  let modcod := plsc >>> 2
  let short_fecframe := plsc &&& 2
  let dummy_frame : Bool := modcod = 0
  -- `has_pilots &= not dummy_frame`: a dummy frame cannot have pilots.
  let has_pilots : Bool := (plsc &&& 1 ≠ 0) && !dummy_frame
  let nm_ns : Nat × Nat :=
    if 1 ≤ modcod ∧ modcod ≤ 11 then (2, 360)
    else if 12 ≤ modcod ∧ modcod ≤ 17 then (3, 240)
    else if 18 ≤ modcod ∧ modcod ≤ 23 then (4, 180)
    else if 24 ≤ modcod ∧ modcod ≤ 28 then (5, 144)
    else (0, 36)
  let n_slots :=
    if short_fecframe ≠ 0 && !dummy_frame then nm_ns.2 >>> 2 else nm_ns.2
  let n_pilots := if has_pilots then (n_slots - 1) >>> 4 else 0
  { n_mod := nm_ns.1
    n_slots := n_slots
    n_pilots := n_pilots
    plframe_len := ((n_slots + 1) * 90) + (36 * n_pilots)
    xfecframe_len := n_slots * 90 }

/-- Embedding of `params.pl_info`: get the PLS via `dvbs2_pls` (propagating
its ValueError) and derive the frame geometry from it. -/
def pl_info (constellation code frame_size : PyStr) (pilots : Bool) :
    Except String PlInfo :=
  (dvbs2_pls constellation code frame_size pilots).map plInfoOfPls

/-
BBFRAME Deheader.  The CRC-8 and the BBFRAME generators below are embedded
from the test helpers in `python/dvbs2rx/qa_bbdeheader_bb.py` (which are
repository source); the deheader block itself is C++ code absent from the
Python sources and is modelled from the design document (§4.4), as marked.
-/

/-- MSB-first bit list of one byte, as `np.unpackbits` produces. -/
def byteToBits (b : Nat) : List Nat :=
  [b / 128 % 2, b / 64 % 2, b / 32 % 2, b / 16 % 2,
   b / 8 % 2, b / 4 % 2, b / 2 % 2, b % 2]

/-- MSB-first bit list of a byte sequence. -/
def bytesToBits (l : List Nat) : List Nat :=
  l.foldr (fun b acc => byteToBits b ++ acc) []

/-- Bits of the CRC-8 generator polynomial x^8+x^7+x^6+x^4+x^2+1 below x^8
(the full bit string in the test file is 111010101). -/
def crcGenTail : List Nat := [1, 1, 0, 1, 0, 1, 0, 1]

/-- Bitwise xor of a short bit list into the prefix of a longer one. -/
def xorBits : List Nat → List Nat → List Nat
  | [], d => d
  | _, [] => []
  | g :: gs, b :: ds => (g ^^^ b) :: xorBits gs ds

/-- Long-division loop of the test helper `crc8`: scan `n` dividend bits;
whenever the leading bit is set, xor the generator into the next 9 bits (the
leading bit becomes 0 and is consumed, so only the 8-bit tail remains). -/
def crcDivide : Nat → List Nat → List Nat
  | 0, d => d
  | n + 1, d =>
    match d with
    | [] => []
    | b :: rest =>
      if b = 1 then crcDivide n (xorBits crcGenTail rest)
      else crcDivide n rest

/-- Pack an MSB-first bit list back into a number, as `np.packbits` does for
the 8-bit remainder. -/
def bitsToByte (l : List Nat) : Nat := l.foldl (fun acc b => 2 * acc + b) 0

/-- Embedding of the test helper `crc8` (qa_bbdeheader_bb.py): CRC-8 of a byte
sequence under the DVB-S2 generator polynomial. -/
def crc8 (bytes : List Nat) : Nat :=
  let bits := bytesToBits bytes
  bitsToByte (crcDivide bits.length (bits ++ [0, 0, 0, 0, 0, 0, 0, 0]))

/-- DFL field of a BBHEADER, in bits (big-endian bytes 4-5 of the frame). -/
def bbDfl (f : List Nat) : Nat := 256 * f.getD 4 0 + f.getD 5 0

/-- SYNCD field of a BBHEADER, in bits (big-endian bytes 7-8 of the frame). -/
def bbSyncd (f : List Nat) : Nat := 256 * f.getD 7 0 + f.getD 8 0

/-- Modelled from the spec: BBHEADER parsing and validation of the BBFRAME
Deheader (design document §4.4, steps 1-3).  The CRC-8 recomputed over the
first 9 BBHEADER bytes must equal the trailing CRC byte, the DATAFIELD length
must satisfy DFL ≤ kbch−80 and 8 | DFL, and SYNCD ≤ DFL.  On success the
SYNCD byte offset and the DATAFIELD bytes are returned; otherwise `none`
(the frame is discarded). -/
def parseBBFrame (kbch : Nat) (f : List Nat) : Option (Nat × List Nat) :=
  let dfl := bbDfl f
  let syncd := bbSyncd f
  if crc8 (f.take 9) = f.getD 9 0 ∧ dfl ≤ kbch - 80 ∧ dfl % 8 = 0 ∧
      syncd ≤ dfl then
    some (syncd / 8, (f.drop 10).take (dfl / 8))
  else none

/-- Modelled from the spec: user-packet reassembly (design document §4.4,
steps 4-5).  DATAFIELD bytes are fed one at a time into the in-progress UP
buffer; a UP is complete when its 188 bytes have been collected and the next
byte of the stream (the CRC-8 chaining byte opening the next UP) arrives, at
which point it is emitted with its leading sync byte restored to 0x47 (the
wire carries the CRC-8 of the previous UP there). -/
def feedUP (buf : List Nat) : List Nat → List Nat × List (List Nat)
  | [] => (buf, [])
  | x :: rest =>
    if buf.length = 188 then
      let r := feedUP [x] rest
      (r.1, (71 :: buf.tail) :: r.2)
    else feedUP (buf ++ [x]) rest

/-- Deheader state: whether the reassembler is synchronized to the UP stream,
and the wire bytes of the UP in progress. -/
structure DehState where
  synced : Bool
  buf : List Nat
deriving DecidableEq

/-- Initial deheader state (stream start: not synchronized, empty buffer). -/
def dehInit : DehState := ⟨false, []⟩

/-- Modelled from the spec: per-BBFRAME processing of the Deheader (design
document §4.4).  An invalid header discards the whole BBFRAME and the partial
UP in progress (no output for this frame).  For a valid frame, SYNCD locates
the first complete UP in the DATAFIELD: when it is consistent with the bytes
still missing from the UP in progress, reassembly continues across the frame
boundary; otherwise (stream discontinuity, or not yet synchronized) the
partial UP is discarded and reassembly restarts at the SYNCD offset. -/
def processFrame (kbch : Nat) (st : DehState) (f : List Nat) :
    DehState × List (List Nat) :=
  match parseBBFrame kbch f with
  | none => (dehInit, [])
  | some (s8, d) =>
    if st.synced ∧ s8 = (188 - st.buf.length) % 188 then
      let r := feedUP st.buf d
      (⟨true, r.1⟩, r.2)
    else
      let r := feedUP [] (d.drop s8)
      (⟨true, r.1⟩, r.2)

/-- Run the deheader from a given state over a list of BBFRAMEs, collecting
the reconstructed user packets in order. -/
def dehRun (kbch : Nat) (st : DehState) : List (List Nat) → DehState × List (List Nat)
  | [] => (st, [])
  | f :: rest =>
    let r := processFrame kbch st f
    let r2 := dehRun kbch r.1 rest
    (r2.1, r.2 ++ r2.2)

/-- Modelled from the spec: the BBFRAME Deheader block — the stream of
complete reconstructed 188-byte user packets produced for a stream of
BBFRAMEs. -/
def bbdeheader (kbch : Nat) (frames : List (List Nat)) : List (List Nat) :=
  (dehRun kbch dehInit frames).2

/-- Embedding of the test helper `gen_bbheader` (qa_bbdeheader_bb.py):
MATYPE = (MPEG-TS, SIS, CCM, rolloff 0.2), UPL = 1504 bits, the given DFL and
SYNCD, sync byte 0x47, and the CRC-8 of the 9 header bytes appended.  A `none`
DFL selects the maximum kbch − 80. -/
def gen_bbheader (kbch syncd : Nat) (dfl : Option Nat) : List Nat :=
  let dflv := dfl.getD (kbch - 80)
  let hdr9 := [242, 0, 1504 / 256, 1504 % 256, dflv / 256, dflv % 256, 71,
               syncd / 256, syncd % 256]
  hdr9 ++ [crc8 hdr9]

/-- Loop of the test helper `replace_sync_with_crc`: for each complete
188-byte UP after the first, replace its leading sync byte by the CRC-8 of
the 187 trailing bytes of the previous UP. -/
def replaceSyncAux : Nat → Option Nat → List Nat → List Nat
  | 0, _, s => s
  | n + 1, crc, s =>
    let up := s.take 188
    let head := match crc with | none => up.getD 0 0 | some c => c
    (head :: up.tail) ++ replaceSyncAux n (some (crc8 up.tail)) (s.drop 188)

/-- Embedding of the test helper `replace_sync_with_crc`
(qa_bbdeheader_bb.py). -/
def replace_sync_with_crc (stream : List Nat) : List Nat :=
  replaceSyncAux (stream.length / 188) none stream

/-- Loop of the test helper `gen_bbframe_stream`: emit a BBHEADER with the
current SYNCD followed by the next DATAFIELD worth of UP bytes, updating the
SYNCD to the bit distance from the next DATAFIELD start to the next UP
boundary. -/
def genBBFramesAux (kbch : Nat) (modStream : List Nat) (dflBytes : Nat) :
    Nat → Nat → Nat → List Nat
  | 0, _, _ => []
  | n + 1, syncd, offset =>
    gen_bbheader kbch syncd none ++ ((modStream.drop offset).take dflBytes) ++
      genBBFramesAux kbch modStream dflBytes n
        ((188 - ((offset + dflBytes) % 188)) * 8) (offset + dflBytes)

/-- Embedding of the test helper `gen_bbframe_stream` (qa_bbdeheader_bb.py):
a stream of `n` BBFRAMEs carrying the CRC-8-chained UP stream. -/
def gen_bbframe_stream (kbch n : Nat) (up_stream : List Nat) (syncd0 : Nat) :
    List Nat :=
  genBBFramesAux kbch (replace_sync_with_crc up_stream) ((kbch - 80) / 8) n
    syncd0 0

/-- Split a byte stream into `n` frames of `sz` bytes. -/
def chunkBytes (sz : Nat) : Nat → List Nat → List (List Nat)
  | 0, _ => []
  | n + 1, s => s.take sz :: chunkBytes sz n (s.drop sz)

/-- Concrete BBFRAME-drop scenario (the shape of test_non_consecutive_bbframes
at a smaller kbch): five concrete 188-byte user packets. -/
def c5ups : List (List Nat) :=
  (List.range 5).map
    (fun k => 71 :: (List.range 187).map (fun j => (7 * j + 13 * k + 1) % 256))

/-- The BBFRAME stream generated for the drop scenario: kbch = 1680 bits, so
210-byte frames with 200-byte DATAFIELDs, 4 frames. -/
def c5frames : List (List Nat) :=
  chunkBytes 210 4 (gen_bbframe_stream 1680 4 c5ups.flatten 0)

/-- The same stream with BBFRAME number 1 dropped. -/
def c5dropped : List (List Nat) := c5frames.take 1 ++ c5frames.drop 2

/-- A small two-BBFRAME stream at kbch = 880 (100-byte DATAFIELDs) carrying a
constant byte stream: the first complete user packet spans both frames and is
reconstructed once its 188 bytes plus the following chaining byte arrive. -/
def c5wStream : List Nat := List.replicate 220 5

/-- The two BBFRAMEs of the small witness stream: SYNCD 0 on the first frame,
then 704 bits ((188 − 100) · 8) on the second. -/
def c5wFrames : List (List Nat) :=
  [gen_bbheader 880 0 none ++ c5wStream.take 100,
   gen_bbheader 880 704 none ++ (c5wStream.drop 100).take 100]

/-
PL Frame Synchronizer.  The C++ block is not in the Python sources; it is
modelled from the design document (§4.3, §8) at the symbol level used by the
test PLFRAMEs of qa_plsync_cc.py: noiseless pi/2-BPSK header symbols are the
quadrant indices 0..3 (0 for exp(j45°), 1 for exp(j135°), 2 for exp(j225°),
3 for exp(j315°)) and the all-zero payload samples are the extra symbol 4.
-/

/-- The 90-symbol test PLHEADER for MODCOD 21, short FECFRAME, no pilots,
transcribed from qa_plsync_cc.py as quadrant indices. -/
def testHeader : List Nat :=
  [0, 3, 2, 1, 0, 1, 2, 3, 0, 3, 0, 1, 2, 1, 2, 3, 2, 1, 2, 1,
   0, 1, 0, 1, 2, 1, 2, 1, 2, 3, 2, 3, 0, 3, 2, 1, 2, 1, 2, 3,
   2, 1, 0, 3, 0, 1, 2, 3, 2, 3, 2, 3, 2, 3, 2, 1, 2, 1, 0, 3,
   2, 1, 0, 1, 0, 1, 2, 1, 0, 1, 2, 3, 2, 1, 0, 1, 0, 3, 2, 3,
   2, 1, 0, 1, 2, 3, 0, 3, 2, 1]

/-- Modelled from the spec: PLSC decoding (§4.3) abstracted as recognition of
known modulated PLHEADERs — the correlation and descrambling decoder is not
in the Python sources.  The test PLHEADER decodes to PLS value
86 = (21 <<< 2) ||| 2 (MODCOD 21, short FECFRAME, no pilots). -/
def plsOfHeader (h : List Nat) : Option Nat :=
  if h = testHeader then some 86 else none

/-- The 90-symbol window of a symbol stream at position p. -/
def window (s : Nat → Nat) (p : Nat) : List Nat :=
  (List.range 90).map (fun j => s (p + j))

/-- Does the known PLHEADER pattern occur at position p of the stream? -/
def headerAt (s : Nat → Nat) (p : Nat) : Bool :=
  decide (window s p = testHeader)

/-- Modelled from the spec: the sliding SOF/PLSC correlation detector (§4.3)
over a noiseless stream — the positions p with p + 90 ≤ len at which the
PLHEADER pattern occurs. -/
def detect (s : Nat → Nat) (len : Nat) : List Nat :=
  (List.range (len - 89)).filter (fun p => headerAt s p)

/-- Detected PLHEADER positions paired with their decoded PLS values. -/
def detections (s : Nat → Nat) (len : Nat) : List (Nat × Nat) :=
  (detect s len).filterMap
    (fun p => (plsOfHeader (window s p)).map (fun v => (p, v)))

/-- Modelled from the spec: the lock/emit state machine of the frame
synchronizer (§4.3).  A PLFRAME is recognized between two consecutive SOF
detections at exactly the spacing implied by the first one's PLSC; its
XFECFRAME payload is then emitted and its first payload symbol tagged with
(MODCOD, short-frame).  While fewer than two matching PLHEADERs have been
seen (UNLOCKED) nothing is emitted.  The first component accumulates the
tags as (output-symbol offset, MODCOD, short-frame); the second counts the
emitted payload symbols. -/
def plsyncRunAux : Option (Nat × Nat) → Nat → List (Nat × Nat) →
    List (Nat × Nat × Bool) × Nat
  | _, out, [] => ([], out)
  | none, out, (q, v) :: rest => plsyncRunAux (some (q, v)) out rest
  | some (p, vp), out, (q, v) :: rest =>
    if q = p + (plInfoOfPls vp).plframe_len then
      let r := plsyncRunAux (some (q, v))
        (out + (plInfoOfPls vp).xfecframe_len) rest
      ((out, vp >>> 2, vp.testBit 1) :: r.1, r.2)
    else plsyncRunAux (some (q, v)) out rest

/-- Modelled from the spec: the PL frame synchronizer block over a symbol
stream given as an indexing function and a length: XFECFRAME tags and the
number of emitted payload symbols. -/
def plsync (s : Nat → Nat) (len : Nat) : List (Nat × Nat × Bool) × Nat :=
  plsyncRunAux none 0 (detections s len)

/-- The noiseless test PLFRAME stream (qa_plsync_cc.py, pilotless frame):
4140-symbol PLFRAMEs, each a 90-symbol PLHEADER followed by 4050 zero payload
symbols. -/
def testStream (i : Nat) : Nat :=
  if i % 4140 < 90 then testHeader.getD (i % 4140) 4 else 4

/-
Symbol Timing Synchronizer.  The C++ block is not in the Python sources; it
is modelled from the design document (§4.1): a Gardner timing error detector
over the three most recent strobe outputs drives a proportional-integral
loop filter with gains K1 and K2, which adjusts the phase countdown of a
linear interpolator.  Samples are complex rationals.
-/

/-- Complex samples as pairs of rationals. -/
abbrev CQ := ℚ × ℚ

/-- Linear interpolation between the current and the previous input sample;
the interpolant fraction mu = 0 selects the current sample. -/
def linInterp (cur prv : CQ) (mu : ℚ) : CQ :=
  (cur.1 + mu * (prv.1 - cur.1), cur.2 + mu * (prv.2 - cur.2))

/-- Modelled from the spec: Gardner timing error computed from three
consecutive strobe samples (§4.1). -/
def gardnerTed (a b c : CQ) : ℚ :=
  b.1 * (a.1 - c.1) + b.2 * (a.2 - c.2)

/-- Symbol synchronizer loop state: phase countdown to the next strobe, PI
integrator, previous input sample, and the two most recent strobe outputs
(TED memory). -/
structure SyState where
  cnt : ℚ
  vi : ℚ
  prv : CQ
  out1 : CQ
  out2 : CQ
deriving DecidableEq

/-- Startup state: the synchronizer consumes one full symbol period (plus the
current sample) before its first strobe, so the first input symbol is never
produced. -/
def syInit (sps : Nat) : SyState := ⟨(sps : ℚ) + 1, 0, (0, 0), (0, 0), (0, 0)⟩

/-- Modelled from the spec: one input sample of the symbol synchronizer
(§4.1).  The countdown decreases by one per sample; on underflow the block
strobes: it interpolates the output at the fractional instant mu, updates the
PI loop filter (v = K1·e + vi, vi += K2·e) from the Gardner error, and
reloads the countdown with the corrected symbol period sps + v. -/
def syStep (sps : Nat) (K1 K2 : ℚ) (st : SyState) (x : CQ) :
    SyState × Option CQ :=
  let cnt1 := st.cnt - 1
  if cnt1 ≤ 0 then
    let mu := -cnt1
    let out := linInterp x st.prv mu
    let e := gardnerTed st.out2 st.out1 out
    let vi1 := st.vi + K2 * e
    let v := K1 * e + vi1
    (⟨cnt1 + ((sps : ℚ) + v), vi1, x, out, st.out1⟩, some out)
  else (⟨cnt1, st.vi, x, st.out1, st.out2⟩, none)

/-- Run the symbol synchronizer over an input list, collecting the strobe
outputs. -/
def syRun (sps : Nat) (K1 K2 : ℚ) (st : SyState) : List CQ → List CQ
  | [] => []
  | x :: rest =>
    match syStep sps K1 K2 st x with
    | (st1, some y) => y :: syRun sps K1 K2 st1 rest
    | (st1, none) => syRun sps K1 K2 st1 rest

/-- Modelled from the spec: the symbol timing synchronizer block over an
input sample stream. -/
def symbolSync (sps : Nat) (K1 K2 : ℚ) (xs : List CQ) : List CQ :=
  syRun sps K1 K2 (syInit sps) xs

/-- The fixed downsampler the spec compares the open-loop block against
(§4.1, §8): exactly one sample retained per sps input samples, the first
input symbol being consumed by startup. -/
def downsample (sps : Nat) (xs : List CQ) : List CQ :=
  (List.range ((xs.length - 1) / sps)).map
    (fun k => xs.getD ((k + 1) * sps) (0, 0))

/-- An open-loop test input in the shape of qa_symbol_sync_cc.py's: seven
symbols upsampled by sps = 2 with zero stuffing. -/
def c8input : List CQ :=
  [(1, 0), (0, 0), (-1, 0), (0, 0), (3, 0), (0, 0), ((-2 : ℚ), 0), (0, 0),
   (2, 0), (0, 0), ((-5 : ℚ), 0), (0, 0), ((3 : ℚ), 0), (0, 0)]

/-- Two Python strings are the same up to letter case (the string-level
consequence of recasing characters: both case-normalized forms agree). -/
def caseVariant (a b : PyStr) : Prop :=
  pyUpper a = pyUpper b ∧ pyLower a = pyLower b

/-- Case variance lifted to optional strings. -/
def caseVariantOpt (a b : Option PyStr) : Prop :=
  a.map pyUpper = b.map pyUpper ∧ a.map pyLower = b.map pyLower

/-- A full-DATAFIELD BBFRAME at kbch = 1680 with an all-zero DATAFIELD. -/
def c4goodFrame : List Nat := gen_bbheader 1680 0 none ++ List.replicate 200 0

/-- The same BBFRAME with its BBHEADER CRC byte corrupted (byte 9 xored with
255, as in test_bbheader_crc_error). -/
def c4badFrame : List Nat :=
  c4goodFrame.set 9 ((c4goodFrame.getD 9 0) ^^^ 255)

end DVBS2

namespace DVBS2

/-- Lowercasing after uppercasing is plain lowercasing (ASCII recasing). -/
theorem char_toLower_toUpper (c : Char) : c.toUpper.toLower = c.toLower := by
  unfold Char.toUpper
  by_cases h : c.toNat ≥ 97 ∧ c.toNat ≤ 122
  · rw [if_pos h]
    have hvalid : (c.toNat - 32).isValidChar := Or.inl (by omega)
    have ht : (Char.ofNat (c.toNat - 32)).toNat = c.toNat - 32 := by
      unfold Char.ofNat
      rw [dif_pos hvalid]
      rfl
    unfold Char.toLower
    rw [ht, if_pos (by omega), if_neg (by omega)]
    have hsub : c.toNat - 32 + 32 = c.toNat := by omega
    rw [hsub, Char.ofNat_toNat]
  · rw [if_neg h]

/-- String-level consequence: `s.upper().lower() == s.lower()`. -/
theorem pyLower_pyUpper (s : PyStr) : pyLower (pyUpper s) = pyLower s := by
  unfold pyLower pyUpper
  rw [List.map_map]
  exact List.map_congr_left (fun c _ => char_toLower_toUpper c)

/-- A successful `plookup` finds an entry of the table. -/
theorem plookup_mem {κ α : Type} [DecidableEq κ] {k : κ} {v : α} :
    ∀ {t : List (κ × α)}, plookup k t = some v → (k, v) ∈ t
  | [], h => by simp [plookup] at h
  | (k0, v0) :: rest, h => by
    by_cases hk : k = k0
    · subst hk
      rw [plookup, if_pos rfl] at h
      obtain rfl : v0 = v := by injection h
      exact List.mem_cons_self _ _
    · rw [plookup, if_neg hk] at h
      exact List.mem_cons_of_mem _ (plookup_mem h)

/-- Every MODCOD in `defs.dvbs2_modcods` lies between 1 and 28. -/
theorem modcod_range (key : PyStr) (m : Nat)
    (h : plookup key dvbs2_modcods = some m) : 1 ≤ m ∧ m ≤ 28 := by
  have hmem := plookup_mem h
  have hall : dvbs2_modcods.all (fun e => decide (1 ≤ e.2 ∧ e.2 ≤ 28)) = true := by
    decide
  have := List.all_eq_true.mp hall _ hmem
  exact of_decide_eq_true this

end DVBS2
namespace DVBS2

theorem validate_s2_modcod (fs code cst0 : PyStr) (p : Bool)
    (hv : validate (S "DVB-S2") fs code (some cst0) none (some p) false = true) :
    (plookup (pyLower (pyUpper cst0) ++ code) dvbs2_modcods).isSome = true := by
  unfold validate at hv
  rw [show pyUpper (S "DVB-S2") = S "DVB-S2" from by decide] at hv
  simp only [Option.map_some] at hv
  split_ifs at hv with h1 h2 h3 h4 h5 h6 h7 h8
  simp at h5
  cases hlk : plookup (pyLower (pyUpper cst0) ++ code) dvbs2_modcods with
  | none => exact absurd hlk h5
  | some m => rfl

end DVBS2

namespace DVBS2

theorem or_lt_128 {a b : Nat} (ha : a < 128) (hb : b < 128) : a ||| b < 128 := by
  have h := Nat.or_lt_two_pow (n := 7)
    (by rw [show (2 : Nat) ^ 7 = 128 from rfl]; exact ha)
    (by rw [show (2 : Nat) ^ 7 = 128 from rfl]; exact hb)
  rw [show (2 : Nat) ^ 7 = 128 from rfl] at h
  exact h

theorem dvbs2_pls_eq_ok (c code fs : PyStr) (p : Bool)
    (hv : validate (S "DVB-S2") (pyLower fs) code (some (pyUpper c)) none
      (some p) false = true) :
    ∃ m, plookup (pyLower c ++ code) dvbs2_modcods = some m ∧ 1 ≤ m ∧ m ≤ 28 ∧
      dvbs2_pls c code fs p =
        .ok (((m <<< 2) ||| ((if fs = S "short" then 1 else 0) <<< 1)) |||
          (if p then 1 else 0)) := by
  have hsome := validate_s2_modcod (pyLower fs) code (pyUpper c) p hv
  rw [pyLower_pyUpper, pyLower_pyUpper] at hsome
  cases hlk : plookup (pyLower c ++ code) dvbs2_modcods with
  | none => rw [hlk] at hsome; simp at hsome
  | some m =>
    obtain ⟨hm1, hm28⟩ := modcod_range _ _ hlk
    refine ⟨m, rfl, hm1, hm28, ?_⟩
    have hsl : m <<< 2 < 128 := by
      rw [Nat.shiftLeft_eq, show (2 : Nat) ^ 2 = 4 from rfl]
      omega
    cases p with
    | false =>
      by_cases hfs : fs = S "short"
      · subst hfs
        simp [dvbs2_pls, hv, hlk]
        exact or_lt_128 hsl (by omega)
      · simp [dvbs2_pls, hv, hlk, hfs]
        exact hsl
    | true =>
      by_cases hfs : fs = S "short"
      · subst hfs
        simp [dvbs2_pls, hv, hlk]
        exact or_lt_128 (or_lt_128 hsl (by omega)) (by omega)
      · simp [dvbs2_pls, hv, hlk, hfs]
        exact or_lt_128 hsl (by omega)

end DVBS2
namespace DVBS2

/-- C1: for every valid DVB-S2 parameter combination, the dictionary returned
by `pl_info` satisfies the slot-count table (360/240/180/144 slots for 2/3/4/5
bits per symbol, divided by 4 for short frames), the pilot-block count
floor((n_slots−1)/16) when pilots are enabled and 0 otherwise,
xfecframe_len = n_slots·90 and plframe_len = (n_slots+1)·90 + 36·n_pilots;
in particular QPSK 1/4 normal with pilots gives 360 slots, 22 pilot blocks,
XFECFRAME length 32400 and PLFRAME length 33282. -/
theorem C1_pl_info_geometry (c code fs : PyStr) (p : Bool)
    (hv : validate (S "DVB-S2") (pyLower fs) code (some (pyUpper c)) none
      (some p) false = true) :
    ∃ info, pl_info c code fs p = Except.ok info ∧
      pl_info (S "QPSK") (S "1/4") (S "normal") true =
        Except.ok ⟨2, 360, 22, 33282, 32400⟩ ∧
      info.n_pilots = (if p then (info.n_slots - 1) / 16 else 0) ∧
      info.xfecframe_len = info.n_slots * 90 ∧
      info.plframe_len = (info.n_slots + 1) * 90 + 36 * info.n_pilots ∧
      (info.n_mod = 2 → info.n_slots = if fs = S "short" then 90 else 360) ∧
      (info.n_mod = 3 → info.n_slots = if fs = S "short" then 60 else 240) ∧
      (info.n_mod = 4 → info.n_slots = if fs = S "short" then 45 else 180) ∧
      (info.n_mod = 5 → info.n_slots = if fs = S "short" then 36 else 144) := by
  obtain ⟨m, hlk, hm1, hm28, hok⟩ := dvbs2_pls_eq_ok c code fs p hv
  have hex : pl_info (S "QPSK") (S "1/4") (S "normal") true =
      Except.ok ⟨2, 360, 22, 33282, 32400⟩ := by decide
  have hpl : pl_info c code fs p = Except.ok (plInfoOfPls
      (((m <<< 2) ||| ((if fs = S "short" then 1 else 0) <<< 1)) |||
        (if p then 1 else 0))) := by
    unfold pl_info
    rw [hok]
    rfl
  refine ⟨_, hpl, hex, ?_⟩
  cases p with
  | false =>
    by_cases hfs : fs = S "short"
    · simp only [if_pos hfs]
      interval_cases m <;> decide
    · simp only [if_neg hfs]
      interval_cases m <;> decide
  | true =>
    by_cases hfs : fs = S "short"
    · simp only [if_pos hfs]
      interval_cases m <;> decide
    · simp only [if_neg hfs]
      interval_cases m <;> decide

end DVBS2
namespace DVBS2

/-- C2: for every valid DVB-S2 parameter combination, encoding with
`dvbs2_pls` and decoding as at the top of `pl_info` (MODCOD = pls >>> 2,
short-frame = bit 1, pilots = bit 0) recovers exactly the table MODCOD of the
constellation/code pair, whether the frame size is short, and the pilots
flag. -/
theorem C2_pls_roundtrip (c code fs : PyStr) (p : Bool)
    (hv : validate (S "DVB-S2") (pyLower fs) code (some (pyUpper c)) none
      (some p) false = true) :
    ∃ v m, dvbs2_pls c code fs p = Except.ok v ∧
      plookup (pyLower c ++ code) dvbs2_modcods = some m ∧
      v >>> 2 = m ∧
      (v &&& 2 = if fs = S "short" then 2 else 0) ∧
      (v &&& 1 = if p then 1 else 0) := by
  obtain ⟨m, hlk, hm1, hm28, hok⟩ := dvbs2_pls_eq_ok c code fs p hv
  refine ⟨_, m, hok, hlk, ?_⟩
  cases p with
  | false =>
    by_cases hfs : fs = S "short"
    · simp only [if_pos hfs]
      interval_cases m <;> decide
    · simp only [if_neg hfs]
      interval_cases m <;> decide
  | true =>
    by_cases hfs : fs = S "short"
    · simp only [if_pos hfs]
      interval_cases m <;> decide
    · simp only [if_neg hfs]
      interval_cases m <;> decide

/-- C3: for every valid DVB-S2 parameter combination, `dvbs2_pls` returns
(MODCOD <<< 2) ||| (short_frame <<< 1) ||| pilots, where MODCOD is the table
value of the constellation/code pair and short_frame holds exactly when the
frame_size string equals "short"; the value is at most 127; for any
combination that is not valid DVB-S2 it raises ValueError. -/
theorem C3_pls_encoding (c code fs : PyStr) (p : Bool) :
    (validate (S "DVB-S2") (pyLower fs) code (some (pyUpper c)) none
        (some p) false = true →
      ∃ m, plookup (pyLower c ++ code) dvbs2_modcods = some m ∧
        dvbs2_pls c code fs p = Except.ok
          (((m <<< 2) ||| ((if fs = S "short" then 1 else 0) <<< 1)) |||
            (if p then 1 else 0)) ∧
        (((m <<< 2) ||| ((if fs = S "short" then 1 else 0) <<< 1)) |||
          (if p then 1 else 0)) ≤ 127) ∧
    (validate (S "DVB-S2") (pyLower fs) code (some (pyUpper c)) none
        (some p) false = false →
      dvbs2_pls c code fs p = Except.error "Invalid DVB-S2 parameters") := by
  constructor
  · intro hv
    obtain ⟨m, hlk, hm1, hm28, hok⟩ := dvbs2_pls_eq_ok c code fs p hv
    refine ⟨m, hlk, hok, ?_⟩
    cases p with
    | false =>
      by_cases hfs : fs = S "short"
      · simp only [if_pos hfs]
        interval_cases m <;> decide
      · simp only [if_neg hfs]
        interval_cases m <;> decide
    | true =>
      by_cases hfs : fs = S "short"
      · simp only [if_pos hfs]
        interval_cases m <;> decide
      · simp only [if_neg hfs]
        interval_cases m <;> decide
  · intro hv
    simp [dvbs2_pls, hv]

theorem C1_witness_qpsk : ∃ info,
    pl_info (S "QPSK") (S "1/4") (S "normal") true = Except.ok info ∧
    pl_info (S "QPSK") (S "1/4") (S "normal") true =
      Except.ok ⟨2, 360, 22, 33282, 32400⟩ ∧
    info.n_pilots = (if true then (info.n_slots - 1) / 16 else 0) ∧
    info.xfecframe_len = info.n_slots * 90 ∧
    info.plframe_len = (info.n_slots + 1) * 90 + 36 * info.n_pilots ∧
    (info.n_mod = 2 →
      info.n_slots = if S "normal" = S "short" then 90 else 360) ∧
    (info.n_mod = 3 →
      info.n_slots = if S "normal" = S "short" then 60 else 240) ∧
    (info.n_mod = 4 →
      info.n_slots = if S "normal" = S "short" then 45 else 180) ∧
    (info.n_mod = 5 →
      info.n_slots = if S "normal" = S "short" then 36 else 144) :=
  C1_pl_info_geometry (S "QPSK") (S "1/4") (S "normal") true (by decide)

theorem C2_witness_8psk : ∃ v m,
    dvbs2_pls (S "8PSK") (S "3/5") (S "short") true = Except.ok v ∧
    plookup (pyLower (S "8PSK") ++ S "3/5") dvbs2_modcods = some m ∧
    v >>> 2 = m ∧
    (v &&& 2 = if S "short" = S "short" then 2 else 0) ∧
    (v &&& 1 = if true then 1 else 0) :=
  C2_pls_roundtrip (S "8PSK") (S "3/5") (S "short") true (by decide)

theorem C3_witness : ∃ m,
    plookup (pyLower (S "qpsk") ++ S "3/5") dvbs2_modcods = some m ∧
    dvbs2_pls (S "qpsk") (S "3/5") (S "short") false = Except.ok
      (((m <<< 2) ||| ((if S "short" = S "short" then 1 else 0) <<< 1)) |||
        (if false then 1 else 0)) ∧
    (((m <<< 2) ||| ((if S "short" = S "short" then 1 else 0) <<< 1)) |||
      (if false then 1 else 0)) ≤ 127 :=
  (C3_pls_encoding (S "qpsk") (S "3/5") (S "short") false).1 (by decide)

end DVBS2

namespace DVBS2

set_option maxHeartbeats 1000000 in
/-- Invariant of the `pls_filter` accumulation loop: a bad value anywhere in
the remaining list yields the ValueError, and an all-good list extends the
accumulated bit masks by exactly the listed PLS positions. -/
theorem pls_filterAux_spec (l : List Int) :
    ∀ lo hi : Nat, lo < 2 ^ 64 → hi < 2 ^ 64 →
      ((∃ p ∈ l, p < 0 ∨ 128 ≤ p) →
        pls_filterAux lo hi l = .error "Unexpected PLS value") ∧
      ((∀ p ∈ l, 0 ≤ p ∧ p < 128) → ∃ lo2 hi2,
        pls_filterAux lo hi l = .ok (lo2, hi2) ∧ lo2 < 2 ^ 64 ∧ hi2 < 2 ^ 64 ∧
        (∀ n : Nat, n < 64 →
          (lo2.testBit n ↔ lo.testBit n ∨ (n : Int) ∈ l)) ∧
        (∀ n : Nat, n < 64 →
          (hi2.testBit n ↔ hi.testBit n ∨ ((n : Int) + 64) ∈ l))) := by
  induction l with
  | nil =>
    intro lo hi hlo hhi
    constructor
    · rintro ⟨p, hp, _⟩
      simp at hp
    · intro _
      exact ⟨lo, hi, rfl, hlo, hhi, by simp, by simp⟩
  | cons p rest ih =>
    intro lo hi hlo hhi
    by_cases hbad : p < 0 ∨ 128 ≤ p
    · constructor
      · intro _
        simp [pls_filterAux, hbad]
      · intro hall
        have := hall p (by simp)
        omega
    · have hgood : 0 ≤ p ∧ p < 128 := by omega
      by_cases h64 : 64 ≤ p
      · have hbit : (1 <<< (p - 64).toNat) < 2 ^ 64 := by
          rw [Nat.shiftLeft_eq, one_mul]
          exact Nat.pow_lt_pow_right (by omega) (by omega)
        have hhi2 : hi ||| (1 <<< (p - 64).toNat) < 2 ^ 64 :=
          Nat.or_lt_two_pow hhi hbit
        have hstep : ∀ rest2, pls_filterAux lo hi (p :: rest2) =
            pls_filterAux lo (hi ||| (1 <<< (p - 64).toNat)) rest2 := by
          intro rest2
          simp [pls_filterAux, hbad, h64]
        obtain ⟨iherr, ihok⟩ := ih lo (hi ||| (1 <<< (p - 64).toNat)) hlo hhi2
        constructor
        · rintro ⟨q, hq, hqbad⟩
          rw [hstep]
          rcases List.mem_cons.mp hq with rfl | hq2
          · omega
          · exact iherr ⟨q, hq2, hqbad⟩
        · intro hall
          obtain ⟨lo2, hi2, heq, hl2, hh2, hlobits, hhibits⟩ :=
            ihok (fun q hq => hall q (List.mem_cons_of_mem _ hq))
          refine ⟨lo2, hi2, by rw [hstep]; exact heq, hl2, hh2, ?_, ?_⟩
          · intro n hn
            rw [hlobits n hn, List.mem_cons]
            have : ¬((n : Int) = p) := by omega
            tauto
          · intro n hn
            rw [hhibits n hn, List.mem_cons]
            rw [Nat.testBit_or, Nat.shiftLeft_eq, one_mul, Nat.testBit_two_pow]
            have : (p - 64).toNat = n ↔ (n : Int) + 64 = p := by omega
            simp only [Bool.or_eq_true, decide_eq_true_eq]
            tauto
      · have hbit : (1 <<< p.toNat) < 2 ^ 64 := by
          rw [Nat.shiftLeft_eq, one_mul]
          exact Nat.pow_lt_pow_right (by omega) (by omega)
        have hlo2 : lo ||| (1 <<< p.toNat) < 2 ^ 64 :=
          Nat.or_lt_two_pow hlo hbit
        have hstep : ∀ rest2, pls_filterAux lo hi (p :: rest2) =
            pls_filterAux (lo ||| (1 <<< p.toNat)) hi rest2 := by
          intro rest2
          simp [pls_filterAux, hbad, h64]
        obtain ⟨iherr, ihok⟩ := ih (lo ||| (1 <<< p.toNat)) hi hlo2 hhi
        constructor
        · rintro ⟨q, hq, hqbad⟩
          rw [hstep]
          rcases List.mem_cons.mp hq with rfl | hq2
          · omega
          · exact iherr ⟨q, hq2, hqbad⟩
        · intro hall
          obtain ⟨lo2, hi2, heq, hl2, hh2, hlobits, hhibits⟩ :=
            ihok (fun q hq => hall q (List.mem_cons_of_mem _ hq))
          refine ⟨lo2, hi2, by rw [hstep]; exact heq, hl2, hh2, ?_, ?_⟩
          · intro n hn
            rw [hlobits n hn, List.mem_cons]
            rw [Nat.testBit_or, Nat.shiftLeft_eq, one_mul, Nat.testBit_two_pow]
            have : p.toNat = n ↔ (n : Int) = p := by omega
            simp only [Bool.or_eq_true, decide_eq_true_eq]
            tauto
          · intro n hn
            rw [hhibits n hn, List.mem_cons]
            have : ¬((n : Int) + 64 = p) := by omega
            tauto

/-- C7: for every tuple of integer PLS values, `pls_filter` raises ValueError
exactly when some value is negative or at least 128; otherwise it returns a
pair of 64-bit words in which bit n of the low word is set exactly when the
value n < 64 is in the tuple and bit n of the high word exactly when the
value n + 64 is in the tuple. -/
theorem C7_pls_filter (l : List Int) :
    ((∃ p ∈ l, p < 0 ∨ 128 ≤ p) ↔
      pls_filter l = Except.error "Unexpected PLS value") ∧
    (∀ lo hi : Nat, pls_filter l = Except.ok (lo, hi) →
      lo < 2 ^ 64 ∧ hi < 2 ^ 64 ∧
      (∀ n : Nat, n < 64 → (lo.testBit n ↔ (n : Int) ∈ l)) ∧
      (∀ n : Nat, n < 64 → (hi.testBit n ↔ ((n : Int) + 64) ∈ l))) := by
  obtain ⟨herr, hok⟩ :=
    pls_filterAux_spec l 0 0 (Nat.two_pow_pos 64) (Nat.two_pow_pos 64)
  constructor
  · constructor
    · intro h
      exact herr h
    · intro heq
      by_contra hno
      push_neg at hno
      obtain ⟨lo2, hi2, hok2, _⟩ := hok (fun q hq => by have := hno q hq; omega)
      rw [pls_filter, hok2] at heq
      cases heq
    
  · intro lo hi heq
    by_cases hb : ∃ p ∈ l, p < 0 ∨ 128 ≤ p
    · rw [pls_filter, herr hb] at heq
      cases heq
    · push_neg at hb
      obtain ⟨lo2, hi2, hok2, hl2, hh2, hlob, hhib⟩ :=
        hok (fun q hq => by have := hb q hq; omega)
      rw [pls_filter, hok2] at heq
      obtain ⟨rfl, rfl⟩ : lo2 = lo ∧ hi2 = hi := by
        constructor <;> injection heq with h1 <;> simp_all
      refine ⟨hl2, hh2, ?_, ?_⟩
      · intro n hn
        rw [hlob n hn]
        simp
      · intro n hn
        rw [hhib n hn]
        simp

theorem C7_witness : pls_filter [(128 : Int)] =
    Except.error "Unexpected PLS value" :=
  (C7_pls_filter [(128 : Int)]).1.mp ⟨128, by simp, by omega⟩

end DVBS2
namespace DVBS2

/-- C10 (amended): `validate` and `translate` return the same result for any
recasing of the standard, frame_size, and constellation strings, and
`dvbs2_pls` and `pl_info` do so for any recasing of the constellation; but
`dvbs2_pls` and `pl_info` are not case-insensitive in frame_size — a
non-lowercase spelling of short validates yet is encoded as a normal
FECFRAME (see the counterexample). -/
theorem C10_case_insensitivity
    (s1 s2 f1 f2 : PyStr) (c1 c2 : Option PyStr) (code : PyStr)
    (r : Option ℚ) (p : Option Bool) (v : Bool)
    (hs : caseVariant s1 s2) (hf : caseVariant f1 f2)
    (hc : caseVariantOpt c1 c2)
    (d1 d2 : PyStr) (hd : caseVariant d1 d2) (dcode dfs : PyStr) (dp : Bool) :
    validate s1 f1 code c1 r p v = validate s2 f2 code c2 r p v ∧
    translate s1 f1 code c1 r p v = translate s2 f2 code c2 r p v ∧
    dvbs2_pls d1 dcode dfs dp = dvbs2_pls d2 dcode dfs dp ∧
    pl_info d1 dcode dfs dp = pl_info d2 dcode dfs dp := by
  obtain ⟨hsu, hsl⟩ := hs
  obtain ⟨hfu, hfl⟩ := hf
  obtain ⟨hcu, hcl⟩ := hc
  obtain ⟨hdu, hdl⟩ := hd
  have hpls : dvbs2_pls d1 dcode dfs dp = dvbs2_pls d2 dcode dfs dp := by
    unfold dvbs2_pls
    rw [hdu, hdl]
  refine ⟨?_, ?_, hpls, ?_⟩
  · unfold validate
    rw [hsu, hfl, hcu]
  · unfold translate
    rw [hsu, hfl, hcu]
  · unfold pl_info
    rw [hpls]

/-- C10 counterexample: `dvbs2_pls` compares the raw frame_size string with
the literal short, so the spelling SHORT validates but yields the
normal-frame PLS (4 instead of 6), and `pl_info` inherits the difference. -/
theorem C10_counterexample :
    dvbs2_pls (S "QPSK") (S "1/4") (S "SHORT") false ≠
      dvbs2_pls (S "QPSK") (S "1/4") (S "short") false ∧
    pl_info (S "QPSK") (S "1/4") (S "SHORT") true ≠
      pl_info (S "QPSK") (S "1/4") (S "short") true := by
  constructor <;> decide

theorem C10_witness :
    validate (S "dvb-s2") (S "NORMAL") (S "1/4") (some (S "Qpsk")) none
        (some true) false =
      validate (S "DVB-S2") (S "normal") (S "1/4") (some (S "qpsk")) none
        (some true) false ∧
    translate (S "dvb-s2") (S "NORMAL") (S "1/4") (some (S "Qpsk")) none
        (some true) false =
      translate (S "DVB-S2") (S "normal") (S "1/4") (some (S "qpsk")) none
        (some true) false ∧
    dvbs2_pls (S "qPsk") (S "1/4") (S "normal") true =
      dvbs2_pls (S "QPSK") (S "1/4") (S "normal") true ∧
    pl_info (S "qPsk") (S "1/4") (S "normal") true =
      pl_info (S "QPSK") (S "1/4") (S "normal") true :=
  C10_case_insensitivity (S "dvb-s2") (S "DVB-S2") (S "NORMAL") (S "normal")
    (some (S "Qpsk")) (some (S "qpsk")) (S "1/4") none (some true) false
    ⟨by decide, by decide⟩ ⟨by decide, by decide⟩ ⟨by decide, by decide⟩
    (S "qPsk") (S "QPSK") ⟨by decide, by decide⟩ (S "1/4") (S "normal") true

end DVBS2

namespace DVBS2

/-- With zero loop gains, a run started n samples before its next strobe
retains exactly the samples at indices n-1, n-1+sps, n-1+2·sps, ... -/
theorem syRun_zero_gain (sps : Nat) (hsps : 1 ≤ sps) :
    ∀ (xs : List CQ) (n : Nat), 1 ≤ n → ∀ (prv o1 o2 : CQ),
      syRun sps 0 0 ⟨(n : ℚ), 0, prv, o1, o2⟩ xs =
        (List.range ((xs.length + sps - n) / sps)).map
          (fun k => xs.getD (n - 1 + k * sps) (0, 0)) := by
  intro xs
  induction xs with
  | nil =>
    intro n hn prv o1 o2
    simp [syRun]
    exact Nat.div_eq_of_lt (by omega)
  | cons x rest ih =>
    intro n hn prv o1 o2
    rcases Nat.lt_or_ge 1 n with hgt | hle
    · -- n ≥ 2: the countdown just decreases, no strobe
      have hcast : (1 : ℚ) < (n : ℚ) := by exact_mod_cast hgt
      have hstep : syStep sps 0 0 ⟨(n : ℚ), 0, prv, o1, o2⟩ x =
          (⟨((n - 1 : Nat) : ℚ), 0, x, o1, o2⟩, none) := by
        simp only [syStep]
        rw [if_neg (by simp; linarith)]
        simp [Nat.cast_sub hn]
      rw [syRun, hstep]
      dsimp only
      rw [ih (n - 1) (by omega) x o1 o2]
      have hc : (rest.length + sps - (n - 1)) / sps =
          ((x :: rest).length + sps - n) / sps := by
        have : rest.length + sps - (n - 1) = (x :: rest).length + sps - n := by
          simp [List.length_cons]
          omega
        rw [this]
      rw [hc]
      apply List.map_congr_left
      intro k _
      have hidx : n - 1 + k * sps = (n - 1 - 1 + k * sps) + 1 := by omega
      rw [hidx, List.getD_cons_succ]
    · -- n = 1: strobe on this sample, output the current sample
      have hn1 : n = 1 := by omega
      subst hn1
      have hstep : syStep sps 0 0 ⟨(1 : ℚ), 0, prv, o1, o2⟩ x =
          (⟨(sps : ℚ), 0, x, x, o1⟩, some x) := by
        simp only [syStep]
        rw [if_pos (by norm_num)]
        simp [linInterp]
      simp only [Nat.cast_one]
      rw [syRun, hstep]
      dsimp only
      rw [ih sps hsps x x o1]
      have hcnt : ((x :: rest).length + sps - 1) / sps = rest.length / sps + 1 := by
        rw [List.length_cons]
        have : rest.length + 1 + sps - 1 = rest.length + sps := by omega
        rw [this, Nat.add_div_right _ (by omega)]
      rw [hcnt, List.range_succ_eq_map, List.map_cons, List.map_map]
      have hub : (rest.length + sps - sps) / sps = rest.length / sps := by
        have : rest.length + sps - sps = rest.length := by omega
        rw [this]
      rw [hub]
      congr 1
      · simp
      · apply List.map_congr_left
        intro k _
        simp only [Function.comp]
        have hidx : (1 - 1 + Nat.succ k * sps) = (sps - 1 + k * sps) + 1 := by
          have hmul : Nat.succ k * sps = k * sps + sps := Nat.succ_mul k sps
          omega
        rw [hidx, List.getD_cons_succ]

/-- C8: with the loop gains K1 and K2 both zero (damping factor zero), the
symbol timing synchronizer degenerates into the fixed downsampler that keeps
one sample per sps input samples, the first input symbol being consumed by
startup. -/
theorem C8_open_loop_downsampler (sps : Nat) (xs : List CQ) (hsps : 1 ≤ sps) :
    symbolSync sps 0 0 xs = downsample sps xs := by
  unfold symbolSync syInit downsample
  have hcast : ((sps : ℚ) + 1) = ((sps + 1 : Nat) : ℚ) := by push_cast; ring
  rw [hcast, syRun_zero_gain sps hsps xs (sps + 1) (by omega) (0, 0) (0, 0)
    (0, 0)]
  have hc : (xs.length + sps - (sps + 1)) / sps = (xs.length - 1) / sps := by
    have : xs.length + sps - (sps + 1) = xs.length - 1 := by omega
    rw [this]
  rw [hc]
  apply List.map_congr_left
  intro k _
  have hidx : sps + 1 - 1 + k * sps = (k + 1) * sps := by
    have hmul : (k + 1) * sps = k * sps + sps := Nat.succ_mul k sps
    omega
  rw [hidx]

theorem C8_witness : symbolSync 2 0 0 c8input =
    [((-1 : ℚ), 0), (3, 0), ((-2 : ℚ), 0), (2, 0), ((-5 : ℚ), 0),
     ((3 : ℚ), 0)] :=
  (C8_open_loop_downsampler 2 c8input (by omega)).trans (by decide)
end DVBS2

namespace DVBS2

theorem getD_take_eq (l : List Nat) (n i : Nat) (h : i < n) :
    (l.take n).getD i 0 = l.getD i 0 := by
  rw [List.getD_eq_getElem?_getD, List.getElem?_take, if_pos h,
    ← List.getD_eq_getElem?_getD]

theorem processFrame_invalid (kbch : Nat) (st : DehState) (f : List Nat)
    (hbad : ¬(crc8 (f.take 9) = f.getD 9 0 ∧ bbDfl f ≤ kbch - 80 ∧
      bbDfl f % 8 = 0 ∧ bbSyncd f ≤ bbDfl f)) :
    processFrame kbch st f = (dehInit, []) := by
  unfold processFrame parseBBFrame
  rw [if_neg hbad]

theorem dehRun_append (kbch : Nat) (l1 l2 : List (List Nat)) :
    ∀ st : DehState, (dehRun kbch st (l1 ++ l2)).2 =
      (dehRun kbch st l1).2 ++ (dehRun kbch (dehRun kbch st l1).1 l2).2 := by
  induction l1 with
  | nil => intro st; simp [dehRun]
  | cons f rest ih =>
    intro st
    simp only [List.cons_append, dehRun, List.append_eq, ih, List.append_assoc]

theorem feedUP_packets : ∀ (d buf p : List Nat),
    p ∈ (feedUP buf d).2 → p.length = 188 ∧ p.headD 0 = 71 := by
  intro d
  induction d with
  | nil =>
    intro buf p hp
    simp [feedUP] at hp
  | cons x rest ih =>
    intro buf p hp
    unfold feedUP at hp
    by_cases hb : buf.length = 188
    · rw [if_pos hb] at hp
      rcases List.mem_cons.mp hp with rfl | hp2
      · refine ⟨?_, rfl⟩
        have ht : buf.tail.length = 187 := by
          rw [List.length_tail, hb]
        simp [ht]
      · exact ih [x] p hp2
    · rw [if_neg hb] at hp
      exact ih _ p hp

theorem processFrame_packets (kbch : Nat) (st : DehState) (f p : List Nat)
    (hp : p ∈ (processFrame kbch st f).2) :
    p.length = 188 ∧ p.headD 0 = 71 := by
  unfold processFrame at hp
  cases hparse : parseBBFrame kbch f with
  | none => rw [hparse] at hp; simp at hp
  | some sd =>
    obtain ⟨s8, d⟩ := sd
    rw [hparse] at hp
    dsimp only at hp
    by_cases hc : st.synced = true ∧ s8 = (188 - st.buf.length) % 188
    · rw [if_pos hc] at hp
      dsimp only at hp
      exact feedUP_packets _ _ _ hp
    · rw [if_neg hc] at hp
      dsimp only at hp
      exact feedUP_packets _ _ _ hp

theorem dehRun_packets (kbch : Nat) (frames : List (List Nat)) :
    ∀ (st : DehState) (p : List Nat), p ∈ (dehRun kbch st frames).2 →
      p.length = 188 ∧ p.headD 0 = 71 := by
  induction frames with
  | nil =>
    intro st p hp
    simp [dehRun] at hp
  | cons f rest ih =>
    intro st p hp
    unfold dehRun at hp
    rcases List.mem_append.mp hp with h1 | h2
    · exact processFrame_packets kbch st f p h1
    · exact ih _ p h2


/-- C4: a BBFRAME whose BBHEADER fails the CRC-8 check, or whose CRC-valid
header carries DFL > kbch − 80, a DFL that is not a multiple of 8, or
SYNCD > DFL, is discarded whole — it produces no packets, only resets the
reassembly state — and the stream around it deframes exactly as the
concatenation of the streams before and after it, so the packets of all
other valid BBFRAMEs are still emitted unchanged and in order. -/
theorem C4_invalid_bbframe_discarded (kbch : Nat) (st : DehState)
    (f : List Nat) (pre post : List (List Nat))
    (hbad : ¬(crc8 (f.take 9) = f.getD 9 0 ∧ bbDfl f ≤ kbch - 80 ∧
      bbDfl f % 8 = 0 ∧ bbSyncd f ≤ bbDfl f)) :
    processFrame kbch st f = (dehInit, []) ∧
    bbdeheader kbch (pre ++ f :: post) =
      bbdeheader kbch pre ++ bbdeheader kbch post := by
  have hdrop : ∀ st2 : DehState, processFrame kbch st2 f = (dehInit, []) :=
    fun st2 => processFrame_invalid kbch st2 f hbad
  refine ⟨hdrop st, ?_⟩
  unfold bbdeheader
  rw [dehRun_append]
  have hmid : ∀ st2 : DehState, (dehRun kbch st2 (f :: post)).2 =
      (dehRun kbch dehInit post).2 := by
    intro st2
    simp [dehRun, hdrop st2]
  rw [hmid]

set_option maxRecDepth 40000 in
set_option maxHeartbeats 4000000 in
/-- C5: the deheader output consists only of complete reconstructed 188-byte
user packets with the sync byte restored (never a partial form of a packet
split across a discarded or missing BBFRAME); per-frame processing reads
nothing beyond the DATAFIELD, so zero-padding bytes are never emitted as
packet data; and dropping one BBFRAME from an otherwise valid generated
sequence removes exactly the user packets overlapping that frame's DATAFIELD
span (here packets 1 and 2 of the 4-frame scenario, packet 4 being the final
partial one never emitted) while all packets before and after are
reconstructed correctly. -/
theorem C5_only_complete_packets :
    (∀ (kbch : Nat) (frames : List (List Nat)) (p : List Nat),
      p ∈ bbdeheader kbch frames → p.length = 188 ∧ p.headD 0 = 71) ∧
    (∀ (kbch : Nat) (st : DehState) (f : List Nat),
      processFrame kbch st (f.take (10 + bbDfl f / 8)) =
        processFrame kbch st f) ∧
    bbdeheader 1680 c5frames =
      [c5ups.getD 0 [], c5ups.getD 1 [], c5ups.getD 2 [], c5ups.getD 3 []] ∧
    bbdeheader 1680 c5dropped =
      [c5ups.getD 0 [], c5ups.getD 3 []] := by
  refine ⟨fun kbch frames p hp => dehRun_packets kbch frames dehInit p hp,
    ?_, by decide, by decide⟩
  intro kbch st f
  have hdfl : bbDfl (f.take (10 + bbDfl f / 8)) = bbDfl f := by
    unfold bbDfl
    rw [getD_take_eq _ _ _ (by omega), getD_take_eq _ _ _ (by omega)]
  have hsyn : bbSyncd (f.take (10 + bbDfl f / 8)) = bbSyncd f := by
    unfold bbSyncd
    rw [getD_take_eq _ _ _ (by omega), getD_take_eq _ _ _ (by omega)]
  have hcrc : (f.take (10 + bbDfl f / 8)).take 9 = f.take 9 := by
    rw [List.take_take]
    congr 1
    omega
  have hcrcb : (f.take (10 + bbDfl f / 8)).getD 9 0 = f.getD 9 0 :=
    getD_take_eq _ _ _ (by omega)
  have hdat : ((f.take (10 + bbDfl f / 8)).drop 10).take (bbDfl f / 8) =
      (f.drop 10).take (bbDfl f / 8) := by
    rw [List.drop_take,
      show 10 + bbDfl f / 8 - 10 = bbDfl f / 8 from by omega, List.take_take,
      show bbDfl f / 8 ⊓ (bbDfl f / 8) = bbDfl f / 8 from by omega]
  unfold processFrame parseBBFrame
  rw [hdfl, hsyn, hcrc, hcrcb]
  dsimp only
  rw [hdat]


set_option maxRecDepth 40000 in
theorem C4_witness :
    processFrame 1680 dehInit c4badFrame = (dehInit, []) ∧
    bbdeheader 1680 ([] ++ c4badFrame :: [c4goodFrame]) =
      bbdeheader 1680 [] ++ bbdeheader 1680 [c4goodFrame] :=
  C4_invalid_bbframe_discarded 1680 dehInit c4badFrame [] [c4goodFrame]
    (by decide)

set_option maxRecDepth 40000 in
theorem C5_witness : (71 :: List.replicate 187 5).length = 188 ∧
    (71 :: List.replicate 187 5).headD 0 = 71 :=
  C5_only_complete_packets.1 880 c5wFrames (71 :: List.replicate 187 5)
    (by decide)

end DVBS2

namespace DVBS2

theorem testHeader_le3 : ∀ j : Nat, testHeader.getD j 0 ≤ 3 := by
  intro j
  rcases Nat.lt_or_ge j testHeader.length with hj | hj
  · have hmem : testHeader.getD j 0 ∈ testHeader := by
      rw [List.getD_eq_getElem?_getD, List.getElem?_eq_getElem hj]
      exact List.getElem_mem hj
    have hall : testHeader.all (fun x => decide (x ≤ 3)) = true := by decide
    exact of_decide_eq_true (List.all_eq_true.mp hall _ hmem)
  · rw [List.getD_eq_getElem?_getD, List.getElem?_eq_none (by omega)]
    simp

theorem window_getD (s : Nat → Nat) (p j : Nat) (hj : j < 90) :
    (window s p).getD j 0 = s (p + j) := by
  unfold window
  rw [List.getD_eq_getElem?_getD, List.getElem?_map, List.getElem?_range hj]
  rfl

theorem headerAt_testStream (p : Nat) :
    headerAt testStream p = decide (p % 4140 = 0) := by
  by_cases hp : p % 4140 = 0
  · have hw : window testStream p = testHeader := by
      unfold window
      have hcong : List.map (fun j => testStream (p + j)) (List.range 90) =
          List.map (fun j => testHeader.getD j 4) (List.range 90) :=
        List.map_congr_left (fun j hj => by
          rw [List.mem_range] at hj
          unfold testStream
          rw [show (p + j) % 4140 = j from by omega, if_pos (by omega)])
      rw [hcong]
      decide
    simp [headerAt, hw, hp]
  · have key : ∀ j0 : Nat, j0 < 90 → 90 ≤ (p + j0) % 4140 →
        headerAt testStream p = false := by
      intro j0 hj0 hge
      apply decide_eq_false
      intro heq
      have hval : (window testStream p).getD j0 0 = testStream (p + j0) :=
        window_getD _ _ _ hj0
      rw [heq] at hval
      have h4 : testStream (p + j0) = 4 := by
        unfold testStream
        rw [if_neg (by omega)]
      have h3 := testHeader_le3 j0
      omega
    rw [decide_eq_false hp]
    rcases Nat.lt_or_ge (p % 4140) 90 with hr | hr
    · exact key (90 - p % 4140) (by omega) (by omega)
    · exact key 0 (by omega) (by omega)

theorem detect_testStream (len : Nat) :
    detect testStream len =
      (List.range (len - 89)).filter (fun p => decide (p % 4140 = 0)) := by
  unfold detect
  exact List.filter_congr (fun p _ => headerAt_testStream p)


set_option maxRecDepth 40000 in
set_option maxHeartbeats 2000000 in
/-- C6: on the noiseless, non-rotated test PLFRAME stream (MODCOD 21, short
frame, 45 slots) with two consecutive PLFRAMEs the synchronizer places
XFECFRAME tags valued (21, true) exactly at output symbol offsets 0 and 4050
and emits 8100 payload symbols; a single PLFRAME (one PLHEADER) yields no
tags and no output; and an input stream in which the PLHEADER pattern does
not occur yields no tags and no output symbols at all. -/
theorem C6_plsync_detection :
    plsync testStream (2 * 4140 + 90) =
      ([(0, 21, true), (4050, 21, true)], 8100) ∧
    plsync testStream 4140 = ([], 0) ∧
    (∀ (s : Nat → Nat) (len : Nat),
      (∀ p, p + 90 ≤ len → window s p ≠ testHeader) →
      plsync s len = ([], 0)) := by
  refine ⟨?_, ?_, ?_⟩
  · have hd : detections testStream (2 * 4140 + 90) =
        [(0, 86), (4140, 86), (8280, 86)] := by
      unfold detections
      rw [detect_testStream,
        show (2 * 4140 + 90 - 89 : Nat) = 4200 + 4081 from rfl,
        List.range_add, List.filter_append]
      decide
    unfold plsync
    rw [hd]
    decide
  · have hd : detections testStream 4140 = [(0, 86)] := by
      unfold detections
      rw [detect_testStream]
      decide
    unfold plsync
    rw [hd]
    decide
  · intro s len hno
    have hdet : detect s len = [] := by
      unfold detect
      rw [List.filter_eq_nil_iff]
      intro p hp
      rw [List.mem_range] at hp
      have := hno p (by omega)
      simp [headerAt, this]
    unfold plsync detections
    rw [hdet]
    rfl

theorem C6_witness : plsync (fun _ => 4) 300 = ([], 0) :=
  C6_plsync_detection.2.2 (fun _ => 4) 300 (fun p _ heq => by
    have h := window_getD (fun _ => 4) p 0 (by omega)
    rw [heq] at h
    have h2 : testHeader.getD 0 0 = 4 := h
    exact absurd h2 (by decide))

end DVBS2
